import Mathlib

/-!
Verification of the job-specification payloads in
`Demos and Tutorials/L100-200 Tutorials/4.Create_Workflow_through_CLI.ipynb.py`.

The repository's single source file contains two shell commands, each
submitting a static JSON job specification to an external CLI: a concrete
payload (lines 7-64) and a templated payload (lines 68-125).  We embed the
JSON documents shallowly: a small JSON value type (strings, arrays, objects
with ordered fields -- the only constructs the documents use), the two
payloads as values of that type, and the literal document texts as strings.
Extraction functions over the value type (task keys, dependency edges,
`run_if` values, `sql_task.file.source` values, warehouse ids) are read off
the schema the documents instantiate.
-/

namespace DbsqlSme

/-- JSON values, restricted to the constructs the two documents use:
strings, arrays, and objects with an ordered field list. -/
inductive Json where
  | str (s : String)
  | arr (elems : List Json)
  | obj (fields : List (String × Json))

/-- The concrete job specification (first payload, source lines 7-64),
transcribed field by field. -/
def concreteJson : Json :=
  .obj [
    ("name", .str "Orchestrating_SQL_Files_on_DBSQL_WAREHOUSE"),
    ("tasks", .arr [
      .obj [
        ("task_key", .str "Create_Tables"),
        ("run_if", .str "ALL_SUCCESS"),
        ("sql_task", .obj [
          ("file", .obj [
            ("path", .str "Demos and Tutorials/L100-200 Tutorials/1.Create_Tables.sql"),
            ("source", .str "GIT")
          ]),
          ("warehouse_id", .str "d1184b8c2a8a87eb")
        ])
      ],
      .obj [
        ("task_key", .str "Load_Data"),
        ("depends_on", .arr [
          .obj [("task_key", .str "Create_Tables")]
        ]),
        ("run_if", .str "ALL_SUCCESS"),
        ("sql_task", .obj [
          ("file", .obj [
            ("path", .str "/Repos/saurabh.shukla@databricks.com/dbsql_sme/Demos and Tutorials/L100-200 Tutorials/2.Load_Data.sql"),
            ("source", .str "WORKSPACE")
          ]),
          ("warehouse_id", .str "d1184b8c2a8a87eb")
        ])
      ],
      .obj [
        ("task_key", .str "Query_Fact_Sales"),
        ("depends_on", .arr [
          .obj [("task_key", .str "Load_Data")]
        ]),
        ("run_if", .str "ALL_SUCCESS"),
        ("sql_task", .obj [
          ("file", .obj [
            ("path", .str "/Repos/saurabh.shukla@databricks.com/dbsql_sme/Demos and Tutorials/L100-200 Tutorials/3.Query_Fact_Sales.sql"),
            ("source", .str "WORKSPACE")
          ]),
          ("warehouse_id", .str "d1184b8c2a8a87eb")
        ])
      ]
    ]),
    ("git_source", .obj [
      ("git_url", .str "https://github.com/saurabhshukla-db/dbsql_sme.git"),
      ("git_provider", .str "gitHub"),
      ("git_branch", .str "feature_branch_sqlfiles")
    ]),
    ("run_as", .obj [
      ("user_name", .str "saurabh.shukla@databricks.com")
    ])
  ]

/-- The templated job specification (second payload, source lines 68-125),
transcribed field by field. -/
def templatedJson : Json :=
  .obj [
    ("name", .str "Orchestrating_SQL_Files_on_DBSQL_WAREHOUSE"),
    ("tasks", .arr [
      .obj [
        ("task_key", .str "Create_Tables"),
        ("run_if", .str "ALL_SUCCESS"),
        ("sql_task", .obj [
          ("file", .obj [
            ("path", .str "<GITPATH>/1.Create_Tables.sql"),
            ("source", .str "GIT")
          ]),
          ("warehouse_id", .str "<DBSQL warehouse_id>")
        ])
      ],
      .obj [
        ("task_key", .str "Load_Data"),
        ("depends_on", .arr [
          .obj [("task_key", .str "Create_Tables")]
        ]),
        ("run_if", .str "ALL_SUCCESS"),
        ("sql_task", .obj [
          ("file", .obj [
            ("path", .str "<GITPATH>/2.Load_Data.sql"),
            ("source", .str "WORKSPACE")
          ]),
          ("warehouse_id", .str "<DBSQL warehouse_id>")
        ])
      ],
      .obj [
        ("task_key", .str "Query_Fact_Sales"),
        ("depends_on", .arr [
          .obj [("task_key", .str "Load_Data")]
        ]),
        ("run_if", .str "ALL_SUCCESS"),
        ("sql_task", .obj [
          ("file", .obj [
            ("path", .str "<GITPATH>/3.Query_Fact_Sales.sql"),
            ("source", .str "WORKSPACE")
          ]),
          ("warehouse_id", .str "<DBSQL warehouse_id>")
        ])
      ]
    ]),
    ("git_source", .obj [
      ("git_url", .str "https://github.com/<GITUSERNAME>/dbsql_sme.git"),
      ("git_provider", .str "gitHub"),
      ("git_branch", .str "feature_branch_sqlfiles")
    ]),
    ("run_as", .obj [
      ("user_name", .str "<username>@<domain>.com")
    ])
  ]

/-! ## Extraction functions over the job-specification schema -/

/-- Look a key up in an ordered JSON object field list (first match). -/
def lookupFields : List (String × Json) → String → Option Json
  | [], _ => none
  | (k, v) :: fs, key => if k = key then some v else lookupFields fs key

/-- Field access on a JSON value: `some` value for a present key of an
object, `none` otherwise (also on non-objects). -/
def Json.lookupField (j : Json) (key : String) : Option Json :=
  match j with
  | Json.obj fs => lookupFields fs key
  | _ => none

/-- String-valued field access. -/
def Json.strField (j : Json) (key : String) : Option String :=
  match j.lookupField key with
  | some (Json.str s) => some s
  | _ => none

/-- The `tasks` sequence of a job specification (empty if absent). -/
def Json.tasks (j : Json) : List Json :=
  match j.lookupField "tasks" with
  | some (Json.arr ts) => ts
  | _ => []

/-- A task's `task_key`, when present as a string. -/
def taskKeyOf (t : Json) : Option String := t.strField "task_key"

/-- A task's `depends_on` array: `none` when the field is absent,
`some` list of dependency entries when present. -/
def dependsOnOf (t : Json) : Option (List Json) :=
  match t.lookupField "depends_on" with
  | some (Json.arr ds) => some ds
  | _ => none

/-- The `task_key` values referenced by a task's `depends_on` entries. -/
def depKeys (t : Json) : List String :=
  ((dependsOnOf t).getD []).filterMap taskKeyOf

/-- All `task_key` values of a job specification, in task order. -/
def taskKeys (j : Json) : List String := j.tasks.filterMap taskKeyOf

/-- The dependency edges of a job specification: `(t, d)` means task `t`
depends on task `d`. -/
def edges (j : Json) : List (String × String) :=
  (j.tasks.map (fun t => (depKeys t).map (fun d => ((taskKeyOf t).getD "", d)))).flatten

/-- All `run_if` values of the tasks, in task order. -/
def runIfs (j : Json) : List String := j.tasks.filterMap (fun t => t.strField "run_if")

/-- A task's `sql_task.file.source` value, when present. -/
def sourceOf (t : Json) : Option String :=
  match t.lookupField "sql_task" with
  | some st =>
    match st.lookupField "file" with
    | some f => f.strField "source"
    | _ => none
  | _ => none

/-- A task's `sql_task.warehouse_id` value, when present. -/
def warehouseOf (t : Json) : Option String :=
  match t.lookupField "sql_task" with
  | some st => st.strField "warehouse_id"
  | _ => none

/-! ## Structural functions -/

mutual
/-- The shape of a JSON value: the same tree with every leaf string
erased.  Two values have equal shapes exactly when they have the same
field names, array lengths and nesting at every level, differing at most
in leaf string values. -/
def Json.shape : Json → Json
  | .str _ => .str ""
  | .arr xs => .arr (Json.shapeList xs)
  | .obj fs => .obj (Json.shapeFields fs)
/-- Shapes of a list of JSON values. -/
def Json.shapeList : List Json → List Json
  | [] => []
  | x :: xs => Json.shape x :: Json.shapeList xs
/-- Shapes of an object field list (field names kept). -/
def Json.shapeFields : List (String × Json) → List (String × Json)
  | [] => []
  | (k, v) :: fs => (k, Json.shape v) :: Json.shapeFields fs
end

mutual
/-- The leaf strings of a JSON value, in document order. -/
def Json.leaves : Json → List String
  | .str s => [s]
  | .arr xs => Json.leavesList xs
  | .obj fs => Json.leavesFields fs
/-- Leaf strings of a list of JSON values. -/
def Json.leavesList : List Json → List String
  | [] => []
  | x :: xs => Json.leaves x ++ Json.leavesList xs
/-- Leaf strings of an object field list (values only). -/
def Json.leavesFields : List (String × Json) → List String
  | [] => []
  | (_, v) :: fs => Json.leaves v ++ Json.leavesFields fs
end

mutual
/-- Every value carried by a field named `key`, anywhere in the document. -/
def Json.fieldValues : Json → String → List Json
  | .str _, _ => []
  | .arr xs, key => Json.fieldValuesList xs key
  | .obj fs, key => Json.fieldValuesFields fs key
/-- `Json.fieldValues` over a list of JSON values. -/
def Json.fieldValuesList : List Json → String → List Json
  | [], _ => []
  | x :: xs, key => Json.fieldValues x key ++ Json.fieldValuesList xs key
/-- `Json.fieldValues` over an object field list. -/
def Json.fieldValuesFields : List (String × Json) → String → List Json
  | [], _ => []
  | (k, v) :: fs, key =>
    (if k = key then [v] else []) ++ Json.fieldValues v key ++ Json.fieldValuesFields fs key
end

/-- Bounded reachability in an edge list: `reachB es n a b` holds when
there is a path from `a` to `b` along `es` of length between 1 and `n`. -/
def reachB (es : List (String × String)) : Nat → String → String → Bool
  | 0, _, _ => false
  | Nat.succ n, a, b => es.any (fun e => e.1 == a && (e.2 == b || reachB es n e.2 b))

/-- A job specification's dependency graph is acyclic (no task reaches
itself through `depends_on` edges, with path length bounded by the number
of tasks, which covers every simple cycle). -/
def acyclicB (j : Json) : Bool :=
  (taskKeys j).all (fun k => !(reachB (edges j) (taskKeys j).length k k))

/-! ## JSON parsing and serialization

Modelled from the spec: the repository contains no parser or serializer --
"parsing either JSON document and re-serializing it" refers to the external
tooling's standard JSON processing.  We model a parser and serializer for
the JSON fragment the documents use (strings without escape sequences,
arrays, objects, whitespace), faithful to standard JSON on that fragment. -/

/-- Drop leading JSON whitespace. -/
def skipWs : List Char → List Char
  | c :: cs => if c = ' ' ∨ c = '\n' ∨ c = '\t' ∨ c = '\r' then skipWs cs else c :: cs
  | [] => []

/-- Modelled from the spec: read a JSON string body after the opening
quote, up to the closing quote (the documents contain no escape
sequences).  Returns the body and the remaining input. -/
def parseStringBody : List Char → Option (List Char × List Char)
  | [] => none
  | c :: cs =>
    if c = '"' then some ([], cs)
    else (parseStringBody cs).map (fun p => (c :: p.1, p.2))

mutual
/-- Modelled from the spec: recursive-descent JSON value parser over the
fragment the documents use, with explicit fuel.  Returns the value and the
remaining input. -/
def parseVal : Nat → List Char → Option (Json × List Char)
  | 0, _ => none
  | Nat.succ fuel, cs =>
    match skipWs cs with
    | '"' :: rest => (parseStringBody rest).map (fun p => (Json.str (String.mk p.1), p.2))
    | '[' :: rest =>
      (match skipWs rest with
       | ']' :: r => some (Json.arr [], r)
       | cs2 => (parseItems fuel cs2).map (fun p => (Json.arr p.1, p.2)))
    | '\x7b' :: rest =>
      (match skipWs rest with
       | '\x7d' :: r => some (Json.obj [], r)
       | cs2 => (parseFields fuel cs2).map (fun p => (Json.obj p.1, p.2)))
    | _ => none
/-- Comma-separated JSON array items up to the closing bracket. -/
def parseItems : Nat → List Char → Option (List Json × List Char)
  | 0, _ => none
  | Nat.succ fuel, cs =>
    match parseVal fuel cs with
    | none => none
    | some (v, rest) =>
      match skipWs rest with
      | ',' :: r => (parseItems fuel r).map (fun p => (v :: p.1, p.2))
      | ']' :: r => some ([v], r)
      | _ => none
/-- Comma-separated JSON object fields up to the closing brace. -/
def parseFields : Nat → List Char → Option (List (String × Json) × List Char)
  | 0, _ => none
  | Nat.succ fuel, cs =>
    match skipWs cs with
    | '"' :: rest =>
      (match parseStringBody rest with
       | none => none
       | some (k, rest2) =>
         match skipWs rest2 with
         | ':' :: rest3 =>
           (match parseVal fuel rest3 with
            | none => none
            | some (v, rest4) =>
              match skipWs rest4 with
              | ',' :: r => (parseFields fuel r).map (fun p => ((String.mk k, v) :: p.1, p.2))
              | '\x7d' :: r => some ([(String.mk k, v)], r)
              | _ => none)
         | _ => none)
    | _ => none
end

/-- Modelled from the spec: parse a complete JSON document (the fragment
the documents use); fails if anything but whitespace follows the value. -/
def Json.parse (s : String) : Option Json :=
  match parseVal (s.length + 1) s.data with
  | some (j, rest) => if (skipWs rest).isEmpty then some j else none
  | none => none

mutual
/-- Modelled from the spec: serialize a JSON value back to text (compact
form; the documents' strings need no escaping). -/
def Json.render : Json → String
  | .str s => "\"" ++ s ++ "\""
  | .arr xs => "[" ++ Json.renderItems xs ++ "]"
  | .obj fs => "\x7b" ++ Json.renderFields fs ++ "\x7d"
/-- Serialize array items, comma-separated. -/
def Json.renderItems : List Json → String
  | [] => ""
  | [x] => Json.render x
  | x :: xs => Json.render x ++ "," ++ Json.renderItems xs
/-- Serialize object fields, comma-separated. -/
def Json.renderFields : List (String × Json) → String
  | [] => ""
  | [(k, v)] => "\"" ++ k ++ "\":" ++ Json.render v
  | (k, v) :: fs => "\"" ++ k ++ "\":" ++ Json.render v ++ "," ++ Json.renderFields fs
end

/-- The task-graph signature of a job specification: its task keys, its
dependency edges, and its tasks' `run_if` values. -/
def graphSig (j : Json) : List String × List (String × String) × List String :=
  (taskKeys j, edges j, runIfs j)

/-! ## The literal document texts

The JSON texts embedded in the two shell commands (source lines 8-63 and
69-124), transcribed verbatim. -/

/-- The concrete payload text, exactly as it appears between the quotes of
the first shell command. -/
def concreteDocText : String :=
  "\x7b\n  \"name\": \"Orchestrating_SQL_Files_on_DBSQL_WAREHOUSE\",\n  \"tasks\": [\n    \x7b\n      \"task_key\": \"Create_Tables\",\n      \"run_if\": \"ALL_SUCCESS\",\n      \"sql_task\": \x7b\n        \"file\": \x7b\n          \"path\": \"Demos and Tutorials/L100-200 Tutorials/1.Create_Tables.sql\",\n          \"source\": \"GIT\"\n        \x7d,\n        \"warehouse_id\": \"d1184b8c2a8a87eb\"\n      \x7d\n    \x7d,\n    \x7b\n      \"task_key\": \"Load_Data\",\n      \"depends_on\": [\n        \x7b\n          \"task_key\": \"Create_Tables\"\n        \x7d\n      ],\n      \"run_if\": \"ALL_SUCCESS\",\n      \"sql_task\": \x7b\n        \"file\": \x7b\n          \"path\": \"/Repos/saurabh.shukla@databricks.com/dbsql_sme/Demos and Tutorials/L100-200 Tutorials/2.Load_Data.sql\",\n          \"source\": \"WORKSPACE\"\n        \x7d,\n        \"warehouse_id\": \"d1184b8c2a8a87eb\"\n      \x7d\n    \x7d,\n    \x7b\n      \"task_key\": \"Query_Fact_Sales\",\n      \"depends_on\": [\n        \x7b\n          \"task_key\": \"Load_Data\"\n        \x7d\n      ],\n      \"run_if\": \"ALL_SUCCESS\",\n      \"sql_task\": \x7b\n        \"file\": \x7b\n          \"path\": \"/Repos/saurabh.shukla@databricks.com/dbsql_sme/Demos and Tutorials/L100-200 Tutorials/3.Query_Fact_Sales.sql\",\n          \"source\": \"WORKSPACE\"\n        \x7d,\n        \"warehouse_id\": \"d1184b8c2a8a87eb\"\n      \x7d\n    \x7d\n  ],\n  \"git_source\": \x7b\n    \"git_url\": \"https://github.com/saurabhshukla-db/dbsql_sme.git\",\n    \"git_provider\": \"gitHub\",\n    \"git_branch\": \"feature_branch_sqlfiles\"\n  \x7d,\n  \"run_as\": \x7b\n    \"user_name\": \"saurabh.shukla@databricks.com\"\n  \x7d\n\x7d"

/-- The templated payload text, exactly as it appears between the quotes
of the second shell command. -/
def templatedDocText : String :=
  "\x7b\n  \"name\": \"Orchestrating_SQL_Files_on_DBSQL_WAREHOUSE\",\n  \"tasks\": [\n    \x7b\n      \"task_key\": \"Create_Tables\",\n      \"run_if\": \"ALL_SUCCESS\",\n      \"sql_task\": \x7b\n        \"file\": \x7b\n          \"path\": \"<GITPATH>/1.Create_Tables.sql\",\n          \"source\": \"GIT\"\n        \x7d,\n        \"warehouse_id\": \"<DBSQL warehouse_id>\"\n      \x7d\n    \x7d,\n    \x7b\n      \"task_key\": \"Load_Data\",\n      \"depends_on\": [\n        \x7b\n          \"task_key\": \"Create_Tables\"\n        \x7d\n      ],\n      \"run_if\": \"ALL_SUCCESS\",\n      \"sql_task\": \x7b\n        \"file\": \x7b\n          \"path\": \"<GITPATH>/2.Load_Data.sql\",\n          \"source\": \"WORKSPACE\"\n        \x7d,\n        \"warehouse_id\": \"<DBSQL warehouse_id>\"\n      \x7d\n    \x7d,\n    \x7b\n      \"task_key\": \"Query_Fact_Sales\",\n      \"depends_on\": [\n        \x7b\n          \"task_key\": \"Load_Data\"\n        \x7d\n      ],\n      \"run_if\": \"ALL_SUCCESS\",\n      \"sql_task\": \x7b\n        \"file\": \x7b\n          \"path\": \"<GITPATH>/3.Query_Fact_Sales.sql\",\n          \"source\": \"WORKSPACE\"\n        \x7d,\n        \"warehouse_id\": \"<DBSQL warehouse_id>\"\n      \x7d\n    \x7d\n  ],\n  \"git_source\": \x7b\n    \"git_url\": \"https://github.com/<GITUSERNAME>/dbsql_sme.git\",\n    \"git_provider\": \"gitHub\",\n    \"git_branch\": \"feature_branch_sqlfiles\"\n  \x7d,\n  \"run_as\": \x7b\n    \"user_name\": \"<username>@<domain>.com\"\n  \x7d\n\x7d"

/-! ## Placeholder tokens -/

/-- Worker for `angleTokens`: the second argument is `none` outside an
angle-bracketed span and `some acc` inside one (accumulated in reverse). -/
def angleTokensAux : List Char → Option (List Char) → List String
  | [], _ => []
  | c :: cs, none =>
    if c = '<' then angleTokensAux cs (some []) else angleTokensAux cs none
  | c :: cs, some acc =>
    if c = '>' then ("<" ++ String.mk acc.reverse ++ ">") :: angleTokensAux cs none
    else angleTokensAux cs (some (c :: acc))

/-- The maximal angle-bracketed spans `<...>` of a string, in order, each
returned with its delimiters. -/
def angleTokens (s : String) : List String := angleTokensAux s.data none

/-- `leadsWith p s` holds when `p` is an initial segment of `s`. -/
def leadsWith : List Char → List Char → Bool
  | [], _ => true
  | _ :: _, [] => false
  | p :: ps, c :: cs => p == c && leadsWith ps cs

/-- `isSub p s` holds when `p` occurs contiguously inside `s`. -/
def isSub : List Char → List Char → Bool
  | p, [] => p.isEmpty
  | p, c :: cs => leadsWith p (c :: cs) || isSub p cs

/-- `strOccurs p s` holds when the string `p` occurs as a contiguous
substring of `s`. -/
def strOccurs (p s : String) : Bool := isSub p.data s.data

/-- The four placeholder patterns the spec lists for the templated
variant. -/
def placeholders : List String :=
  ["<GITPATH>", "<DBSQL warehouse_id>", "<GITUSERNAME>", "<username>@<domain>.com"]

/-! ## Claim-specific predicates -/

/-- Every key referenced by a task's `depends_on` exists among the
payload's task keys. -/
def depsResolvedB (j : Json) : Bool :=
  j.tasks.all (fun t => (depKeys t).all (fun d => (taskKeys j).contains d))

/-- Every task's `sql_task.file.source` is "GIT" or "WORKSPACE". -/
def sourcesEnumB (j : Json) : Bool :=
  j.tasks.all (fun t => sourceOf t == some "GIT" || sourceOf t == some "WORKSPACE")

/-- Every task's `run_if` is "ALL_SUCCESS", and every occurrence of a
`run_if` field anywhere in the document carries that same string. -/
def runIfAllSuccessB (j : Json) : Bool :=
  j.tasks.all (fun t => t.strField "run_if" == some "ALL_SUCCESS")
    && (j.fieldValues "run_if").all
        (fun v => match v with | Json.str s => s == "ALL_SUCCESS" | _ => false)

/-- Every task's `sql_task.warehouse_id` equals the given value. -/
def singleWarehouseB (j : Json) (w : String) : Bool :=
  j.tasks.all (fun t => warehouseOf t == some w)

/-- Parse a document and re-serialize the result, then parse once more
(the round trip of the spec's round-trip property). -/
def reparse (s : String) : Option Json :=
  (Json.parse s).bind (fun j => Json.parse (Json.render j))

/-! ## The claims -/

set_option maxRecDepth 200000

/-- C1: the templated payload is structurally isomorphic to the concrete
payload: equal shapes (hence the same field names, array lengths and
nesting at every level), the same task keys and the same `depends_on`
edges; and at every leaf position the two documents either agree or the
templated leaf contains a placeholder marker `<`. -/
theorem templated_isomorphic_to_concrete :
    Json.shape templatedJson = Json.shape concreteJson
    ∧ taskKeys templatedJson = taskKeys concreteJson
    ∧ edges templatedJson = edges concreteJson
    ∧ (List.zip (Json.leaves concreteJson) (Json.leaves templatedJson)).all
        (fun p => p.1 == p.2 || p.2.data.contains '<') = true :=
  ⟨rfl, rfl, rfl, by decide⟩

/-- C2: the concrete payload's dependency edges are exactly the chain
`Load_Data` depends on `Create_Tables` and `Query_Fact_Sales` depends on
`Load_Data`, and no task reaches itself through `depends_on` edges. -/
theorem concrete_chain_acyclic :
    edges concreteJson = [("Load_Data", "Create_Tables"), ("Query_Fact_Sales", "Load_Data")]
    ∧ acyclicB concreteJson = true :=
  ⟨rfl, by decide⟩

/-- C3: in both payloads, every `task_key` referenced by a `depends_on`
entry exists among the payload's task keys. -/
theorem depends_on_keys_exist :
    depsResolvedB concreteJson = true ∧ depsResolvedB templatedJson = true := by
  decide

/-- C4: in both payloads, every task's `sql_task.file.source` is a member
of the enumerated set containing "GIT" and "WORKSPACE". -/
theorem sql_file_sources_enumerated :
    sourcesEnumB concreteJson = true ∧ sourcesEnumB templatedJson = true := by
  decide

/-- C5: parsing either literal document yields exactly the transcribed
payload, and parsing then re-serializing then re-parsing yields a document
with the same task-graph signature (task keys, dependency edges, `run_if`
values), even though the compact re-serialization formats the text
differently. -/
theorem parse_render_preserves_task_graph :
    Json.parse concreteDocText = some concreteJson
    ∧ Json.parse templatedDocText = some templatedJson
    ∧ (reparse concreteDocText).map graphSig = some (graphSig concreteJson)
    ∧ (reparse templatedDocText).map graphSig = some (graphSig templatedJson) :=
  ⟨rfl, rfl, rfl, rfl⟩

/-- C6: in both payloads the task keys are pairwise distinct. -/
theorem task_keys_nodup :
    (taskKeys concreteJson).Nodup ∧ (taskKeys templatedJson).Nodup := by
  decide

/-- C7: each of the four placeholder patterns the spec lists occurs in the
templated document text; every angle-bracketed token occurring in that
text lies inside one of the four patterns; and the distinct
angle-bracketed tokens are exactly the three stand-alone placeholders
together with the two components of the composite pattern
`<username>@<domain>.com`. -/
theorem templated_placeholders_exact :
    placeholders.all (fun ph => strOccurs ph templatedDocText) = true
    ∧ (angleTokens templatedDocText).all
        (fun tok => placeholders.any (fun ph => strOccurs tok ph)) = true
    ∧ (angleTokens templatedDocText).dedup
        = ["<GITPATH>", "<DBSQL warehouse_id>", "<GITUSERNAME>", "<username>", "<domain>"] := by
  refine ⟨by decide, by decide, by decide⟩

/-- C8: in both payloads every task's `run_if` is "ALL_SUCCESS", and no
other `run_if` value appears anywhere in either document. -/
theorem run_if_always_all_success :
    runIfAllSuccessB concreteJson = true ∧ runIfAllSuccessB templatedJson = true := by
  decide

/-- C9: within each payload all tasks carry one and the same
`warehouse_id` -- "d1184b8c2a8a87eb" in the concrete payload and
"<DBSQL warehouse_id>" in the templated payload -- and there are three
tasks, so the check is not vacuous. -/
theorem single_warehouse_per_payload :
    singleWarehouseB concreteJson "d1184b8c2a8a87eb" = true
    ∧ singleWarehouseB templatedJson "<DBSQL warehouse_id>" = true
    ∧ concreteJson.tasks.length = 3 ∧ templatedJson.tasks.length = 3 := by
  refine ⟨by decide, by decide, rfl, rfl⟩

/-- C10: in both payloads the task list is exactly: `Create_Tables` first
with no `depends_on` field, then `Load_Data` and `Query_Fact_Sales`, each
with a one-entry (hence non-empty) `depends_on`; so `Create_Tables` is the
unique dependency-free root. -/
theorem unique_root_create_tables :
    concreteJson.tasks.map (fun t => (taskKeyOf t, Option.map List.length (dependsOnOf t)))
      = [(some "Create_Tables", none), (some "Load_Data", some 1), (some "Query_Fact_Sales", some 1)]
    ∧ templatedJson.tasks.map (fun t => (taskKeyOf t, Option.map List.length (dependsOnOf t)))
      = [(some "Create_Tables", none), (some "Load_Data", some 1), (some "Query_Fact_Sales", some 1)] :=
  ⟨rfl, rfl⟩

end DbsqlSme
